import Mathlib

/-!
Shallow embedding of the OpenSub Python sidecar
(src/python-service/whisper_service/): the session state machine
(transcriber.py), the JSON-RPC router (rpc_handler.py) and the
transport loop (main.py).

External library calls (whisperx_mlx model loading, audio decoding,
inference, mlx memory management) are opaque collaborators; their
outcomes are supplied by explicit environment records.  The
best-effort background progress-ticker threads started during the
long blocking loads are timing side channels with no correctness
obligation and are not part of the deterministic event sequences
modelled here; likewise the diagnostic logger calls (stderr) and the
gc / mlx cache-clear calls, which do not touch the session fields.
-/

/-- Opaque handle to a loaded alignment model, as returned by
whisperx_mlx.load_align_model. -/
structure AlignModel where
  id : Nat
  deriving DecidableEq

/-- Opaque handle to the alignment metadata returned alongside the
alignment model. -/
structure AlignMetadata where
  id : Nat
  deriving DecidableEq

/-- Opaque handle to a loaded (cached) Whisper transcription model, as
returned by whisperx_mlx.backends.load_model. -/
structure WhisperModel where
  id : Nat
  deriving DecidableEq

/-- The WhisperTranscriber instance state: exactly the fields assigned
in WhisperTranscriber.__init__ (transcriber.py lines 54 to 64).  The
threading.Lock carries no data of its own; lock usage is recorded in
the flag-write traces below. -/
structure Session where
  align_model : Option AlignModel
  align_metadata : Option AlignMetadata
  whisper_model : Option WhisperModel
  device : String
  language : String
  model_name : String
  is_initialized : Bool
  is_processing : Bool
  cancel_requested : Bool
  deriving DecidableEq

/-- The fresh session built by WhisperTranscriber.__init__. -/
def Session.start : Session :=
  { align_model := none, align_metadata := none, whisper_model := none
    device := "mps", language := "de", model_name := "large-v3"
    is_initialized := false, is_processing := false, cancel_requested := false }

/-- One invocation of the progress callback: (stage, percent, message).
The router wraps each invocation into a progress notification written
to stdout.  The router always supplies a callback, so the conditionals of the source on the callback being present are modelled as taken. -/
structure ProgressEvent where
  stage : String
  percent : Int
  message : String
  deriving DecidableEq

/-- Model-loading operations requested from the external toolkit during
session start-up.  The acquireDiar constructor represents the
diarization-pipeline acquisition described by the specification; it is
included so that its absence from every trace produced by the code is
expressible as a theorem. -/
inductive LoadOp where
  | importLib
  | loadAlign (language_code device : String)
  | loadWhisper (model_name backend device language : String)
  | acquireDiar (token : String)
  deriving DecidableEq

/-- Whether a load operation is a diarization-pipeline acquisition. -/
def LoadOp.isDiar : LoadOp → Bool
  | .acquireDiar _ => true
  | _ => false

/-- Arguments of WhisperTranscriber.initialize, with the Python default
values (transcriber.py lines 66 to 73). -/
structure InitArgs where
  model_name : String := "large-v3"
  language : String := "de"
  device : String := "mps"
  compute_type : String := "float16"
  hf_token : Option String := none
  deriving DecidableEq

/-- Outcomes of the three fallible external stages of initialization:
the whisperx_mlx import, load_align_model, and load_model.  An error
value carries str(e) of the raised exception. -/
structure InitEnv where
  importResult : Except String Unit
  loadAlignResult : Except String (AlignModel × AlignMetadata)
  loadWhisperResult : Except String WhisperModel

/-- Result of one initialization call: the outcome (ok, or the
description of the re-raised failure), the session state after the call,
the progress events emitted, and the external load operations
performed. -/
structure InitResult where
  outcome : Except String Unit
  state : Session
  events : List ProgressEvent
  loads : List LoadOp

/-- Embedding of WhisperTranscriber.initialize (transcriber.py lines
66 to 280).  The MLX warm-up block (lines 268 to 274) catches every
exception and only logs, so it contributes no failure path and no
state change.  self._progress_callback (line 189) is callback
bookkeeping never read elsewhere and is omitted. -/
def Session.initModels (s : Session) (a : InitArgs) (env : InitEnv) : InitResult :=
  -- line 77: skip if already initialized with a cached model
  if s.is_initialized && s.whisper_model.isSome then
    { outcome := .ok (), state := s
      events := [⟨"initializing", 100, "KI-Modelle bereits geladen"⟩]
      loads := [] }
  else
    -- lines 83-92: first progress event, then config assignment
    let s := { s with device := a.device, language := a.language, model_name := a.model_name }
    let ev1 : List ProgressEvent :=
      [⟨"initializing", 2, "Starte Python-Umgebung..."⟩,
       ⟨"initializing", 5, "Importiere KI-Bibliotheken (kann 30-60 Sek. dauern)..."⟩]
    match env.importResult with
    | .error e =>
        -- lines 139-144: import failure is re-raised
        { outcome := .error e, state := s, events := ev1, loads := [.importLib] }
    | .ok () =>
        let ev2 := ev1 ++
          [⟨"initializing", 15, "Bibliotheken geladen"⟩,
           ⟨"initializing", 17, "Lade Alignment-Modell fuer Wort-Timing..."⟩]
        match env.loadAlignResult with
        | .error e =>
            -- lines 163-167: error progress event, then re-raise
            { outcome := .error e, state := s
              events := ev2 ++ [⟨"initializing", 17, "Fehler beim Laden des Alignment-Modells: " ++ e⟩]
              loads := [.importLib, .loadAlign a.language "cpu"] }
        | .ok (am, md) =>
            -- line 158: both alignment handles stored on the session
            let s := { s with align_model := some am, align_metadata := some md }
            let ev3 := ev2 ++
              [⟨"initializing", 35, "Alignment-Modell geladen"⟩,
               ⟨"initializing", 37, "Bereite Whisper " ++ a.model_name ++ " Download vor..."⟩,
               ⟨"initializing", 40, "Lade Whisper " ++ a.model_name ++ " (kann bei erstem Start einige Minuten dauern)..."⟩,
               ⟨"initializing", 40, "Verbinde mit HuggingFace Hub..."⟩]
            match env.loadWhisperResult with
            | .error e =>
                -- lines 258-262: error progress event, then re-raise
                { outcome := .error e, state := s
                  events := ev3 ++ [⟨"initializing", 40, "Fehler: " ++ e⟩]
                  loads := [.importLib, .loadAlign a.language "cpu",
                            .loadWhisper a.model_name "mlx" a.device a.language] }
            | .ok wm =>
                let s := { s with whisper_model := some wm }
                { outcome := .ok ()
                  state := { s with is_initialized := true }
                  events := ev3 ++
                    [⟨"initializing", 92, "Whisper-Modell geladen, finalisiere..."⟩,
                     ⟨"initializing", 95, "Initialisiere MLX Metal-Backend..."⟩,
                     ⟨"initializing", 100, "KI-Modelle erfolgreich geladen"⟩]
                  loads := [.importLib, .loadAlign a.language "cpu",
                            .loadWhisper a.model_name "mlx" a.device a.language] }

/-- Decoded audio buffer returned by whisperx_mlx.audio.load_audio;
only the sample count is observable (duration = samples / 16000,
transcriber.py line 306). -/
structure Audio where
  sampleCount : Nat
  deriving DecidableEq

/-- A word dictionary as produced by whisperx_mlx.align; every key is
read with dict.get and a default (transcriber.py lines 383 to 389), so
each field may be absent. -/
structure RawWord where
  word : Option String
  start : Option Rat
  end_ : Option Rat
  score : Option Rat
  deriving DecidableEq

/-- A segment dictionary as produced by the external toolkit
(transcriber.py lines 381 to 396). -/
structure RawSegment where
  start : Option Rat
  end_ : Option Rat
  text : Option String
  words : Option (List RawWord)
  deriving DecidableEq

/-- The dictionary returned by the transcription / alignment library
calls: a mandatory segments key (indexed directly, line 335) and an
optional language key (read with a default, line 400). -/
structure RawTranscript where
  segments : List RawSegment
  language : Option String
  deriving DecidableEq

/-- A formatted word of the TranscriptResult (transcriber.py lines 384
to 389): exactly the keys word, start, end, score.  The field end_
embeds the dictionary key end (a Lean keyword).  There is no speaker
field: _format_result never writes one. -/
structure Word where
  word : String
  start : Rat
  end_ : Rat
  score : Rat
  deriving DecidableEq

/-- A formatted segment (transcriber.py lines 391 to 396): exactly the
keys start, end, text, words; no speaker field. -/
structure Segment where
  start : Rat
  end_ : Rat
  text : String
  words : List Word
  deriving DecidableEq

/-- The TranscriptResult mapping (transcriber.py lines 398 to 402). -/
structure TranscriptResult where
  segments : List Segment
  language : String
  duration : Rat
  deriving DecidableEq

/-- Embedding of WhisperTranscriber._format_result (transcriber.py
lines 373 to 402); self.language is the fallback for the language
key. -/
def Session.formatResult (s : Session) (r : RawTranscript) (duration : Rat) : TranscriptResult :=
  { segments := r.segments.map fun seg =>
      { start := seg.start.getD 0
        end_ := seg.end_.getD 0
        text := seg.text.getD ""
        words := (seg.words.getD []).map fun w =>
          { word := w.word.getD ""
            start := w.start.getD 0
            end_ := w.end_.getD 0
            score := w.score.getD 0 } }
    language := r.language.getD s.language
    duration := duration }

/-- The options dictionary built by the router for a transcribe call
(rpc_handler.py lines 69 to 71): only a language key. -/
structure TxOptions where
  language : Option String := none
  deriving DecidableEq

/-- Environment of one transcribe call: outcomes of the three external
stages, and whether a concurrent cancel() lands before each of the
three cancellation checks (transcriber.py lines 308, 327, 344).
cancel2 and cancel3 mean a cancel arriving in the window after the
previous check; the flag, once set, stays set for the rest of the
job because transcribe clears it only at entry. -/
structure TranscribeEnv where
  loadAudio : Except String Audio
  whisperOut : Except String RawTranscript
  alignOut : Except String RawTranscript
  cancel1 : Bool
  cancel2 : Bool
  cancel3 : Bool

/-- A write to one of the two guarded session flags, with whether the
write happens while holding self._lock. -/
inductive FlagWrite where
  | setProcessing (value : Bool) (underLock : Bool)
  | setCancelRequested (value : Bool) (underLock : Bool)
  deriving DecidableEq

/-- Whether a flag write targets is_processing. -/
def FlagWrite.isProcessing : FlagWrite → Bool
  | .setProcessing _ _ => true
  | _ => false

/-- The value a transcribe call returns when it does not raise: the
mapping with the single key cancelled set to true, or the
TranscriptResult mapping (transcriber.py lines 309 and 357). -/
inductive TxValue where
  | cancelled
  | transcript (t : TranscriptResult)
  deriving DecidableEq

/-- Result of one transcribe call: outcome (a raised failure carries
str(e)), the session state on return, the progress events emitted, and
the trace of the writes transcribe itself makes to the guarded flags. -/
structure TxResult where
  outcome : Except String TxValue
  state : Session
  events : List ProgressEvent
  flagWrites : List FlagWrite

/-- str(e) of the AttributeError CPython raises for
self.whisper_model.transcribe when whisper_model is None
(transcriber.py line 319, reached whenever transcribe runs before a
successful initialization). -/
def noneTypeMsg : String :=
  "\x27NoneType\x27 object has no attribute \x27transcribe\x27"

/-- The try-block of WhisperTranscriber.transcribe (transcriber.py
lines 299 to 357), run on a state whose flags were just set at entry.
Returns (outcome, state after the body, progress events).  The align
call receives whatever self.align_model holds; the library outcome,
including a failure on a None handle, is supplied by env.alignOut. -/
def Session.transcribeBody (s0 : Session) (env : TranscribeEnv) :
    Except String TxValue × Session × List ProgressEvent :=
  let ev1 : List ProgressEvent := [⟨"loading", 0, "Lade Audio-Datei..."⟩]
  match env.loadAudio with
  | .error e => (.error e, s0, ev1)
  | .ok audio =>
    let duration : Rat := (audio.sampleCount : Rat) / 16000
    -- a concurrent cancel() in the first window sets the flag
    let s1 := { s0 with cancel_requested := env.cancel1 }
    if s1.cancel_requested then (.ok .cancelled, s1, ev1)
    else
      let ev2 := ev1 ++ [⟨"transcribing", 10, "Transkribiere mit MLX (GPU)..."⟩]
      match s1.whisper_model with
      | none => (.error noneTypeMsg, s1, ev2)
      | some _ =>
        match env.whisperOut with
        | .error e => (.error e, s1, ev2)
        | .ok _ =>
          let s2 := { s1 with cancel_requested := s1.cancel_requested || env.cancel2 }
          if s2.cancel_requested then (.ok .cancelled, s2, ev2)
          else
            let ev3 := ev2 ++ [⟨"aligning", 50, "Synchronisiere Wort-Zeitstempel..."⟩]
            match env.alignOut with
            | .error e => (.error e, s2, ev3)
            | .ok raw2 =>
              let s3 := { s2 with cancel_requested := s2.cancel_requested || env.cancel3 }
              if s3.cancel_requested then (.ok .cancelled, s3, ev3)
              else
                let ev4 := ev3 ++ [⟨"complete", 100, "Transkription abgeschlossen"⟩]
                (.ok (.transcript (s3.formatResult raw2 duration)), s3, ev4)

/-- Embedding of WhisperTranscriber.transcribe (transcriber.py lines
282 to 371).  Entry takes the lock and sets is_processing true and
cancel_requested false (lines 295 to 297); the finally clause (lines
359 to 371) resets is_processing under the lock on every exit path
and then runs gc / mlx cache cleanup, which has no session-state
effect.  The body never writes either flag (the checks only read
under the lock), so the flag-write trace of transcribe itself is the
same on every path.  Importing whisperx_mlx at line 293 re-reads a
cached module and is modelled as succeeding. -/
def Session.transcribe (s : Session) (audio_path : String) (options : TxOptions)
    (env : TranscribeEnv) : TxResult :=
  let s0 : Session := { s with is_processing := true, cancel_requested := false }
  let b := Session.transcribeBody s0 env
  { outcome := b.1
    state := { b.2.1 with is_processing := false }
    events := b.2.2
    flagWrites := [.setProcessing true true, .setCancelRequested false true,
                   .setProcessing false true] }

/-- Embedding of WhisperTranscriber.cancel (transcriber.py lines 485
to 489): sets cancel_requested under the lock; always succeeds. -/
def Session.cancelJob (s : Session) : Session × List FlagWrite :=
  ({ s with cancel_requested := true }, [.setCancelRequested true true])

/-- Embedding of WhisperTranscriber.cleanup (transcriber.py lines 504
to 511). -/
def Session.cleanup (s : Session) : Session :=
  { s with whisper_model := none, align_model := none, align_metadata := none,
           is_initialized := false }

/-- The params mapping of an inbound request, projected to the keys any
handler reads (rpc_handler.py lines 42 to 46, 68, 70).  A none field
is an absent key.  The diarize / speaker-count keys named by the
specification are included so that requests carrying them are
representable; no handler in rpc_handler.py ever reads them. -/
structure Params where
  model : Option String := none
  language : Option String := none
  device : Option String := none
  compute_type : Option String := none
  hf_token : Option String := none
  audio_path : Option String := none
  diarize : Option Bool := none
  min_speakers : Option Int := none
  max_speakers : Option Int := none
  deriving DecidableEq

/-- An inbound JSON-RPC message as rpc_handler.py reads it: every field
via dict.get, so each may be absent (request.get of a missing id and
an explicit null id are the same None). -/
structure Request where
  jsonrpc : Option String := none
  method : Option String := none
  params : Params := {}
  id : Option Int := none
  deriving DecidableEq

/-- The five entries of RPCHandler.methods (rpc_handler.py lines 10 to
16). -/
inductive MethodName where
  | init
  | tx
  | cancelReq
  | status
  | shutdown
  deriving DecidableEq

/-- The dictionary lookup self.methods.get: which handler a method
string maps to (none = method not found; a missing method key, read as
None, is not found either). -/
def methodOf : Option String → Option MethodName
  | some "initialize" => some .init
  | some "transcribe" => some .tx
  | some "cancel" => some .cancelReq
  | some "get_status" => some .status
  | some "shutdown" => some .shutdown
  | _ => none

/-- How Python str-formats the method value into the error message
f-string (rpc_handler.py line 29): None prints as None. -/
def methodText : Option String → String
  | none => "None"
  | some m => m

/-- The result mapping a handler returns, one constructor per dict
shape in rpc_handler.py: initAck is the status=initialized, model
mapping (line 64); txTranscript the TranscriptResult mapping and
txCancelled the cancelled=true mapping (line 82, via the
transcriber); cancelAck the status=cancelled mapping (line 87);
statusSnapshot the get_status mapping (transcriber.py lines 497 to
502); shutdownAck the status=shutdown mapping (line 96). -/
inductive MethodResult where
  | initAck (model : String)
  | txTranscript (t : TranscriptResult)
  | txCancelled
  | cancelAck
  | statusSnapshot (isInit isProc : Bool) (device language : String)
  | shutdownAck
  deriving DecidableEq

/-- An outbound response: success result with id, or error with code,
message and (possibly null) id (rpc_handler.py lines 34 and 98 to
103). -/
inductive RpcOut where
  | success (result : MethodResult) (id : Int)
  | error (code : Int) (message : String) (id : Option Int)
  deriving DecidableEq

/-- Result of RPCHandler.handle on one request: the optional response,
the session state afterwards, the progress notifications emitted while
handling, and the load / flag-write traces of the session work. -/
structure HandleResult where
  response : Option RpcOut
  session : Session
  notes : List ProgressEvent
  loads : List LoadOp
  flagWrites : List FlagWrite

/-- str(e) of the KeyError raised by params of a missing audio_path key
(rpc_handler.py line 68): Python formats KeyError as the quoted key. -/
def keyErrorAudioPath : String := "\x27audio_path\x27"

/-- The tail of RPCHandler.handle (rpc_handler.py lines 31 to 38): a
raising handler becomes a -32603 error response keyed to the request
id even when that id is None; a successful handler is answered only
when an id is present. -/
def RPCHandler.finish (req : Request) (s : Session) (notes : List ProgressEvent)
    (loads : List LoadOp) (fw : List FlagWrite) (out : Except String MethodResult) :
    HandleResult :=
  { session := s, notes := notes, loads := loads, flagWrites := fw
    response :=
      match out with
      | .error e => some (.error (-32603) e req.id)
      | .ok r =>
        match req.id with
        | some i => some (.success r i)
        | none => none }

/-- Embedding of RPCHandler.handle (rpc_handler.py lines 18 to 38)
with the per-method handlers (lines 40 to 96) inlined at their call
sites.  The external outcomes for the session work are supplied by
ienv / tenv. -/
def RPCHandler.handle (s : Session) (ienv : InitEnv) (tenv : TranscribeEnv)
    (req : Request) : HandleResult :=
  if req.jsonrpc = some "2.0" then
    match methodOf req.method with
    | some .init =>
        -- rpc_handler.py lines 40 to 64
        let a : InitArgs :=
          { model_name := req.params.model.getD "large-v3"
            language := req.params.language.getD "de"
            device := req.params.device.getD "mps"
            compute_type := req.params.compute_type.getD "float16"
            hf_token := req.params.hf_token }
        let r := Session.initModels s a ienv
        RPCHandler.finish req r.state r.events r.loads []
          (r.outcome.map fun _ => MethodResult.initAck a.model_name)
    | some .tx =>
        -- rpc_handler.py lines 66 to 82
        match req.params.audio_path with
        | none => RPCHandler.finish req s [] [] [] (.error keyErrorAudioPath)
        | some path =>
            let options : TxOptions := { language := some (req.params.language.getD "de") }
            let r := Session.transcribe s path options tenv
            RPCHandler.finish req r.state r.events [] r.flagWrites
              (r.outcome.map fun v =>
                match v with
                | .cancelled => MethodResult.txCancelled
                | .transcript t => MethodResult.txTranscript t)
    | some .cancelReq =>
        -- rpc_handler.py lines 84 to 87
        let r := Session.cancelJob s
        RPCHandler.finish req r.1 [] [] r.2 (.ok .cancelAck)
    | some .status =>
        -- rpc_handler.py lines 89 to 91; transcriber.py lines 495 to 502
        RPCHandler.finish req s [] [] []
          (.ok (.statusSnapshot s.is_initialized s.is_processing s.device s.language))
    | some .shutdown =>
        -- rpc_handler.py lines 93 to 96
        RPCHandler.finish req (Session.cleanup s) [] [] [] (.ok .shutdownAck)
    | none =>
        { response := some (.error (-32601) ("Method not found: " ++ methodText req.method) req.id)
          session := s, notes := [], loads := [], flagWrites := [] }
  else
    { response := some (.error (-32600) "Invalid Request" req.id)
      session := s, notes := [], loads := [], flagWrites := [] }

/-- One line read from stdin by the transport loop (main.py lines 56
to 62) after stripping: blank (skipped), a line json.loads rejects
(the JSONDecodeError description attached), or a parsed request. -/
inductive InLine where
  | blank
  | malformed (err : String)
  | request (req : Request)

/-- One record written to stdout: the start-up ready notification
(main.py line 53), a progress notification (rpc_handler.py lines 105
to 108), or a response (main.py lines 20 to 38). -/
inductive OutMsg where
  | readyNote (version : String)
  | progressNote (e : ProgressEvent)
  | response (r : RpcOut)
  deriving DecidableEq

/-- The body of the transport loop for one line (main.py lines 56 to
71): blank lines are skipped; a parse failure is answered with a
-32700 error carrying the null default id and the loop continues;
otherwise the request is dispatched and the notifications emitted
during handling precede the response on stdout. -/
def processLine (s : Session) (ienv : InitEnv) (tenv : TranscribeEnv) (l : InLine) :
    Session × List OutMsg :=
  match l with
  | .blank => (s, [])
  | .malformed e => (s, [.response (.error (-32700) ("Parse error: " ++ e) none)])
  | .request req =>
      let r := RPCHandler.handle s ienv tenv req
      (r.session,
        r.notes.map .progressNote ++
          match r.response with
          | some resp => [.response resp]
          | none => [])

/-- The transport loop over a finite stdin prefix (main.py lines 56 to
71), threading the session state and concatenating stdout records.
The same environment records serve every line; the lines settled here
touch at most one fallible call each. -/
def mainLoop (s : Session) (ienv : InitEnv) (tenv : TranscribeEnv) :
    List InLine → Session × List OutMsg
  | [] => (s, [])
  | l :: rest =>
      let r1 := processLine s ienv tenv l
      let r2 := mainLoop r1.1 ienv tenv rest
      (r2.1, r1.2 ++ r2.2)

/-- Embedding of main (main.py lines 41 to 71): a fresh session, the
ready notification before any request, then the loop. -/
def runService (ienv : InitEnv) (tenv : TranscribeEnv) (input : List InLine) :
    Session × List OutMsg :=
  let r := mainLoop Session.start ienv tenv input
  (r.1, OutMsg.readyNote "1.0.0" :: r.2)

/-- Whether the second character list is a prefix of the first. -/
def hasPrefixChars : List Char → List Char → Bool
  | _, [] => true
  | [], _ :: _ => false
  | a :: as, b :: bs => a == b && hasPrefixChars as bs

/-- Whether the second character list occurs contiguously in the
first. -/
def hasInfixChars : List Char → List Char → Bool
  | [], needle => needle.isEmpty
  | a :: as, needle => hasPrefixChars (a :: as) needle || hasInfixChars as needle

/-- Whether needle occurs as a contiguous substring of hay. -/
def mentionsSub (hay needle : String) : Bool :=
  hasInfixChars hay.data needle.data

/-- Whether the run of transcribe on this environment and session
reaches a cancellation check that reads the flag as set: the audio
must decode to reach the first check, the cached model and the
transcription call must succeed to reach the second, and alignment
must succeed to reach the third (transcriber.py lines 308, 327,
344). -/
def TranscribeEnv.observesCancel (env : TranscribeEnv) (s : Session) : Bool :=
  match env.loadAudio with
  | .error _ => false
  | .ok _ =>
    env.cancel1 ||
      match s.whisper_model, env.whisperOut with
      | some _, .ok _ =>
        env.cancel2 ||
          match env.alignOut with
          | .ok _ => env.cancel3
          | .error _ => false
      | _, _ => false

/-- Shape of a router reply to a message that carried no id: nothing,
or an error response whose id is null; never a success response. -/
def noIdShape : Option RpcOut → Bool
  | none => true
  | some (.error _ _ none) => true
  | _ => false

/-- Concrete environment in which every external load succeeds. -/
def ienvOk : InitEnv :=
  { importResult := .ok (), loadAlignResult := .ok (⟨0⟩, ⟨0⟩), loadWhisperResult := .ok ⟨0⟩ }

/-- Concrete environment in which the transcription-model load fails. -/
def ienvWhisperFail : InitEnv :=
  { importResult := .ok (), loadAlignResult := .ok (⟨0⟩, ⟨0⟩)
    loadWhisperResult := .error "model load failed" }

/-- Concrete transcribe environment: one second of audio, empty
transcript, no failures, no concurrent cancel. -/
def tenvPlain : TranscribeEnv :=
  { loadAudio := .ok ⟨16000⟩, whisperOut := .ok ⟨[], none⟩, alignOut := .ok ⟨[], none⟩
    cancel1 := false, cancel2 := false, cancel3 := false }

/-- tenvPlain with a concurrent cancel landing before the first
check. -/
def tenvCancelFirst : TranscribeEnv :=
  { tenvPlain with cancel1 := true }

/-- A session in the Ready state with all handles cached. -/
def sReady : Session :=
  { Session.start with align_model := some ⟨0⟩, align_metadata := some ⟨0⟩
                       whisper_model := some ⟨0⟩, is_initialized := true }

/-- A transcribe request with an id, as the parent application sends
before any initialization. -/
def reqTxFirst : Request :=
  { jsonrpc := some "2.0", method := some "transcribe"
    params := { audio_path := some "x.wav" }, id := some 1 }

/-- A message with a wrong envelope version and no id. -/
def reqBadVersion : Request :=
  { jsonrpc := some "1.0", method := some "get_status", id := none }

/-- Helper: the router tail on a request without id returns nothing on
a successful handler outcome and an error response with null id on a
raising one. -/
theorem finish_noId_shape (req : Request) (s : Session) (notes : List ProgressEvent)
    (loads : List LoadOp) (fw : List FlagWrite) (out : Except String MethodResult)
    (hreq : req.id = none) :
    noIdShape (RPCHandler.finish req s notes loads fw out).response = true := by
  cases out <;> simp [RPCHandler.finish, hreq, noIdShape]

/-- Claim C7: on every exit path of transcribe (success, raised
failure, or cancelled result) the processing flag of the session is set
true as the first flag write and reset false as the last, both under
the lock, with no other processing-flag write in between, and the
returned state carries processing = false.  Confirmed: the entry block
and the finally clause bracket every path identically. -/
theorem claimC7_processing_flag (s : Session) (path : String) (opt : TxOptions)
    (env : TranscribeEnv) :
    (Session.transcribe s path opt env).flagWrites
        = [FlagWrite.setProcessing true true, FlagWrite.setCancelRequested false true,
           FlagWrite.setProcessing false true]
    ∧ ((Session.transcribe s path opt env).flagWrites.filter fun w => w.isProcessing)
        = [FlagWrite.setProcessing true true, FlagWrite.setProcessing false true]
    ∧ (Session.transcribe s path opt env).state.is_processing = false :=
  ⟨rfl, rfl, rfl⟩

/-- Claim C9: a line that fails to parse as JSON yields exactly one
-32700 error response with a null id, the session state is untouched,
and the loop processes the remaining lines exactly as it would have
without the bad line.  Confirmed. -/
theorem claimC9_parse_error_recovery (s : Session) (ienv : InitEnv) (tenv : TranscribeEnv)
    (e : String) (rest : List InLine) :
    mainLoop s ienv tenv (InLine.malformed e :: rest)
      = ((mainLoop s ienv tenv rest).1,
         OutMsg.response (RpcOut.error (-32700) ("Parse error: " ++ e) none)
           :: (mainLoop s ienv tenv rest).2) :=
  rfl

/-- Claim C10: once the session is Ready with a cached transcription
model, every further call of the initialization routine
short-circuits for arbitrary requested arguments and arbitrary
environment: it performs no load, emits the single 100-percent event,
and returns the state unchanged, so the configuration from the first
call (device, language, model name) stays in effect.  Confirmed: the
guard reads only the initialized flag and the cached model. -/
theorem claimC10_guard_ignores_params (amod : Option AlignModel) (amd : Option AlignMetadata)
    (wm : WhisperModel) (d lg mn : String) (pr cr : Bool) (a : InitArgs) (env : InitEnv) :
    let s : Session := { align_model := amod, align_metadata := amd
                         whisper_model := some wm, device := d, language := lg
                         model_name := mn, is_initialized := true
                         is_processing := pr, cancel_requested := cr }
    let r := Session.initModels s a env
    r.outcome = Except.ok () ∧ r.state = s ∧ r.loads = []
      ∧ r.events = [⟨"initializing", 100, "KI-Modelle bereits geladen"⟩] :=
  ⟨rfl, rfl, rfl, rfl⟩

/-- Claim C3: a second call of the initialization routine with the
same arguments, right after a first successful one on a fresh
session, short-circuits: it returns successfully, emits exactly one
100-percent progress event (no intermediate-stage events), performs no
load operation, and leaves the state exactly as the first call left
it.  Confirmed. -/
theorem claimC3_idempotent (a : InitArgs) (am : AlignModel) (md : AlignMetadata)
    (wm : WhisperModel) (env2 : InitEnv) :
    let env1 : InitEnv := { importResult := .ok (), loadAlignResult := .ok (am, md)
                            loadWhisperResult := .ok wm }
    let r1 := Session.initModels Session.start a env1
    let r2 := Session.initModels r1.state a env2
    r1.outcome = Except.ok () ∧ r2.outcome = Except.ok ()
      ∧ r2.events = [⟨"initializing", 100, "KI-Modelle bereits geladen"⟩]
      ∧ r2.loads = [] ∧ r2.state = r1.state :=
  ⟨rfl, rfl, rfl, rfl, rfl⟩

/-- Claim C1 counterexample: with a fresh (never initialized) session
and a readable audio file, the transcribe request is answered with a
-32603 error, but the message is the Python attribute error from
invoking transcribe on the absent cached model; it does not even
contain the substring init, so it does not indicate that the session
is not initialized as the claim states. -/
theorem claimC1_counterexample :
    (RPCHandler.handle Session.start ienvOk tenvPlain reqTxFirst).response
        = some (RpcOut.error (-32603) noneTypeMsg (some 1))
    ∧ mentionsSub noneTypeMsg "init" = false := by
  constructor
  · rfl
  · decide

/-- Claim C1 amended: a transcribe call made before any successful
initialization (cached model absent), with no concurrent cancel
request, is answered with an error response of code -32603 and no
TranscriptResult; the message is the description of the failing stage (the
audio-decode failure, or else the attribute error on the absent
model), not a message about initialization. -/
theorem claimC1_amended (amod : Option AlignModel) (amd : Option AlignMetadata)
    (d lg mn : String) (pr cr : Bool) (p : Params) (path : String) (i : Int)
    (ienv : InitEnv) (la : Except String Audio) (wo ao : Except String RawTranscript)
    (c2 c3 : Bool) :
    (RPCHandler.handle
        { align_model := amod, align_metadata := amd, whisper_model := none
          device := d, language := lg, model_name := mn
          is_initialized := false, is_processing := pr, cancel_requested := cr }
        ienv
        { loadAudio := la, whisperOut := wo, alignOut := ao
          cancel1 := false, cancel2 := c2, cancel3 := c3 }
        { jsonrpc := some "2.0", method := some "transcribe"
          params := { p with audio_path := some path }, id := some i }).response
      = some (RpcOut.error (-32603)
          (match la with | .error e => e | .ok _ => noneTypeMsg) (some i)) := by
  cases la <;>
    simp [RPCHandler.handle, RPCHandler.finish, methodOf, Session.transcribe,
          Session.transcribeBody, Except.map]

/-- Claim C2 counterexample: on a fresh session, an initialization in
which the transcription-model load fails re-raises the failure and
leaves the session uninitialized, but the alignment model and metadata
acquired before the failing stage stay stored on the session instead
of being discarded as the claim states. -/
theorem claimC2_counterexample :
    (Session.initModels Session.start {} ienvWhisperFail).outcome
        = Except.error "model load failed"
    ∧ (Session.initModels Session.start {} ienvWhisperFail).state.align_model = some ⟨0⟩
    ∧ (Session.initModels Session.start {} ienvWhisperFail).state.align_metadata = some ⟨0⟩
    ∧ (Session.initModels Session.start {} ienvWhisperFail).state.is_initialized = false := by
  refine ⟨rfl, rfl, rfl, rfl⟩

/-- Claim C2 amended: when the transcription-model load stage fails,
the failure is re-raised to the caller and the session keeps
is_initialized = false, so a subsequent initialization can be retried
and will overwrite the handles; however the alignment model and
metadata loaded before the failing stage are retained on the session,
not discarded, and the cached transcription model is left as it
was. -/
theorem claimC2_amended (amod : Option AlignModel) (amd : Option AlignMetadata)
    (wm : Option WhisperModel) (d lg mn : String) (pr cr : Bool)
    (a : InitArgs) (am : AlignModel) (md : AlignMetadata) (e : String) :
    let s : Session := { align_model := amod, align_metadata := amd, whisper_model := wm
                         device := d, language := lg, model_name := mn
                         is_initialized := false, is_processing := pr, cancel_requested := cr }
    let env : InitEnv := { importResult := .ok (), loadAlignResult := .ok (am, md)
                           loadWhisperResult := .error e }
    let r := Session.initModels s a env
    r.outcome = Except.error e ∧ r.state.is_initialized = false
      ∧ r.state.align_model = some am ∧ r.state.align_metadata = some md
      ∧ r.state.whisper_model = wm :=
  ⟨rfl, rfl, rfl, rfl, rfl⟩

/-- Claim C4 counterexample: an initialization that supplies a
credential token performs exactly the import, alignment-model and
transcription-model loads; no diarization pipeline is acquired, so
diarization is not enabled by supplying a token as the claim
states. -/
theorem claimC4_counterexample :
    (Session.initModels Session.start { hf_token := some "hf-token-123" } ienvOk).outcome
        = Except.ok ()
    ∧ (Session.initModels Session.start { hf_token := some "hf-token-123" } ienvOk).loads
        = [LoadOp.importLib, LoadOp.loadAlign "de" "cpu",
           LoadOp.loadWhisper "large-v3" "mlx" "mps" "de"]
    ∧ ((Session.initModels Session.start { hf_token := some "hf-token-123" } ienvOk).loads.all
        fun op => !op.isDiar) = true := by
  refine ⟨rfl, rfl, rfl⟩

/-- Claim C4 amended: the credential token is accepted but ignored: no
call of the initialization routine, whatever the session state,
arguments (token or not) and environment, ever acquires a diarization
pipeline; the session owns no diarization handle, the transcribe
pipeline has no diarization stage, and formatted words and segments
carry no speaker field. -/
theorem claimC4_amended (s : Session) (a : InitArgs) (env : InitEnv) :
    ((Session.initModels s a env).loads.all fun op => !op.isDiar) = true := by
  rcases env with ⟨ir, lar, lwr⟩
  unfold Session.initModels
  dsimp only
  split
  · rfl
  · rcases ir with e | u
    · rfl
    · rcases lar with e | ⟨am, md⟩
      · rfl
      · rcases lwr with e | wm <;> rfl

/-- Claim C5: a transcribe call that observes the cancellation flag
set at one of the three checked stage boundaries (after audio load,
after transcription, after alignment) returns exactly the
cancelled-result value; in particular it never returns a (partial)
TranscriptResult.  Confirmed. -/
theorem claimC5_cancel_returns_cancelled (s : Session) (path : String) (opt : TxOptions)
    (env : TranscribeEnv) (h : env.observesCancel s = true) :
    (Session.transcribe s path opt env).outcome = Except.ok TxValue.cancelled := by
  rcases env with ⟨la, wo, ao, c1, c2, c3⟩
  rcases la with e | audio
  · simp [TranscribeEnv.observesCancel] at h
  · cases c1
    · rcases hw : s.whisper_model with _ | wmv
      · simp [TranscribeEnv.observesCancel, hw] at h
      · rcases wo with e | raw1
        · simp [TranscribeEnv.observesCancel, hw] at h
        · cases c2
          · rcases ao with e | raw2
            · simp [TranscribeEnv.observesCancel, hw] at h
            · cases c3
              · simp [TranscribeEnv.observesCancel, hw] at h
              · simp [Session.transcribe, Session.transcribeBody, hw]
          · simp [Session.transcribe, Session.transcribeBody, hw]
    · simp [Session.transcribe, Session.transcribeBody]

/-- Claim C5 witness: a Ready session with a cancel request landing
before the first check returns the cancelled value. -/
theorem claimC5_witness :
    (Session.transcribe sReady "x.wav" {} tenvCancelFirst).outcome
      = Except.ok TxValue.cancelled :=
  claimC5_cancel_returns_cancelled sReady "x.wav" {} tenvCancelFirst (by decide)

/-- Claim C6 counterexample: a message with a wrong envelope version
and no id is answered with an Invalid Request error response carrying
a null id; the router does not return nothing as the claim states. -/
theorem claimC6_counterexample :
    (RPCHandler.handle Session.start ienvOk tenvPlain reqBadVersion).response
        = some (RpcOut.error (-32600) "Invalid Request" none)
    ∧ (RPCHandler.handle Session.start ienvOk tenvPlain reqBadVersion).response ≠ none := by
  refine ⟨rfl, ?_⟩
  decide

/-- Claim C6 amended: for a message without id, the router returns
nothing only on the path where the handler completes successfully; on
envelope-version mismatch, unknown method, and a raising handler it
returns an error response whose id is null.  The conjuncts pin each
path: (a) the reply is never a success response; (b) any wrong version
tag yields the -32600 error with null id; (c) any unknown method
yields the -32601 error with null id; (d) a raising handler (here the
KeyError of the transcribe handler on a missing audio_path) yields the
-32603 error with null id; (e) a successfully handled method
(get_status) yields nothing. -/
theorem claimC6_amended (s : Session) (ienv : InitEnv) (tenv : TranscribeEnv)
    (j m : Option String) (p : Params) :
    noIdShape (RPCHandler.handle s ienv tenv
        { jsonrpc := j, method := m, params := p, id := none }).response = true
    ∧ (j ≠ some "2.0" →
        (RPCHandler.handle s ienv tenv
            { jsonrpc := j, method := m, params := p, id := none }).response
          = some (RpcOut.error (-32600) "Invalid Request" none))
    ∧ (methodOf m = none →
        (RPCHandler.handle s ienv tenv
            { jsonrpc := some "2.0", method := m, params := p, id := none }).response
          = some (RpcOut.error (-32601) ("Method not found: " ++ methodText m) none))
    ∧ (RPCHandler.handle s ienv tenv
        { jsonrpc := some "2.0", method := some "transcribe"
          params := { p with audio_path := none }, id := none }).response
      = some (RpcOut.error (-32603) keyErrorAudioPath none)
    ∧ (RPCHandler.handle s ienv tenv
        { jsonrpc := some "2.0", method := some "get_status", params := p, id := none }).response
      = none := by
  refine ⟨?_, ?_, ?_, rfl, rfl⟩
  · unfold RPCHandler.handle
    split
    · split
      · exact finish_noId_shape _ _ _ _ _ _ rfl
      · split
        · exact finish_noId_shape _ _ _ _ _ _ rfl
        · exact finish_noId_shape _ _ _ _ _ _ rfl
      · exact finish_noId_shape _ _ _ _ _ _ rfl
      · exact finish_noId_shape _ _ _ _ _ _ rfl
      · exact finish_noId_shape _ _ _ _ _ _ rfl
      · rfl
    · rfl
  · intro hj
    simp [RPCHandler.handle, hj]
  · intro hm
    simp [RPCHandler.handle, hm]

/-- Claim C6 witness: with no id present, a wrong version tag is
answered by the -32600 error with null id, and an unknown method by
the -32601 error with null id. -/
theorem claimC6_witness :
    (RPCHandler.handle Session.start ienvOk tenvPlain
        { jsonrpc := some "1.0", method := some "get_status", params := {}, id := none }).response
      = some (RpcOut.error (-32600) "Invalid Request" none)
    ∧ (RPCHandler.handle Session.start ienvOk tenvPlain
        { jsonrpc := some "2.0", method := some "frobnicate", params := {}, id := none }).response
      = some (RpcOut.error (-32601) ("Method not found: " ++ methodText (some "frobnicate")) none) :=
  ⟨(claimC6_amended Session.start ienvOk tenvPlain (some "1.0") (some "get_status") {}).2.1
      (by decide),
   (claimC6_amended Session.start ienvOk tenvPlain (some "2.0") (some "frobnicate") {}).2.2.1
      (by decide)⟩

/-- Claim C8: after a cancel call with no job running, the next
transcribe call is unaffected: it clears the flag at its own entry,
and if no further cancel arrives during the run and the stages
succeed it returns a TranscriptResult, not the cancelled value.
Confirmed. -/
theorem claimC8_cancel_idle_no_effect (amod : Option AlignModel) (amd : Option AlignMetadata)
    (wm : WhisperModel) (d lg mn : String) (ini cr : Bool)
    (path : String) (opt : TxOptions) (audio : Audio) (raw1 raw2 : RawTranscript) :
    let s : Session := { align_model := amod, align_metadata := amd
                         whisper_model := some wm, device := d, language := lg
                         model_name := mn, is_initialized := ini
                         is_processing := false, cancel_requested := cr }
    let env : TranscribeEnv := { loadAudio := .ok audio, whisperOut := .ok raw1
                                 alignOut := .ok raw2
                                 cancel1 := false, cancel2 := false, cancel3 := false }
    let after := (Session.cancelJob s).1
    after.cancel_requested = true
      ∧ ∃ t, (Session.transcribe after path opt env).outcome
          = Except.ok (TxValue.transcript t) :=
  ⟨rfl, ⟨_, rfl⟩⟩
